import Mathlib

/-!
Verification of the stream-identity primitives of `h3` (`src/proto/stream.rs`):
the `StreamType` and `StreamId` value types, their varint wire codec, the
bit-derived classifications (`index`, `initiator`, `dir`, `is_request`,
`is_push`), ordering, and human-readable rendering.

Bytes are modelled as `Nat` values `< 256`; buffers as `List Nat` (the unread
byte sequence for decoding, the accumulated output for encoding).  A Rust
panic (the `.unwrap()` in `StreamId::encode`) is modelled as `Option.none`.
-/

namespace H3

/-- Modelled from the spec: the variable-length-integer wire codec
(`VarInt` from `proto/varint.rs` and `BufMutExt::write_var` from
`proto/coding.rs` are not among the provided sources).  A 2-bit length
prefix on the first byte selects a total length of 1, 2, 4 or 8 bytes;
the remaining 6 + 8·(len−1) bits hold the value big-endian, bounding
values to 62 usable bits.  `writeVar v` is the byte sequence of the
shortest encoding of `v` (values 0–63 encode in 1 byte). -/
def writeVar (v : Nat) : List Nat :=
  if v < 2 ^ 6 then [v]
  else if v < 2 ^ 14 then [2 ^ 6 + v / 2 ^ 8, v % 2 ^ 8]
  else if v < 2 ^ 30 then
    [2 ^ 7 + v / 2 ^ 24, v / 2 ^ 16 % 2 ^ 8, v / 2 ^ 8 % 2 ^ 8, v % 2 ^ 8]
  else
    [2 ^ 7 + 2 ^ 6 + v / 2 ^ 56, v / 2 ^ 48 % 2 ^ 8, v / 2 ^ 40 % 2 ^ 8,
     v / 2 ^ 32 % 2 ^ 8, v / 2 ^ 24 % 2 ^ 8, v / 2 ^ 16 % 2 ^ 8,
     v / 2 ^ 8 % 2 ^ 8, v % 2 ^ 8]

/-- Modelled from the spec: varint decoding (`BufExt::get_var` from
`proto/coding.rs` is not among the provided sources).  The two top bits of
the first byte give the total byte length `2 ^ (b0 / 64)`; the low 6 bits of
the first byte followed by the remaining bytes, big-endian, give the value.
Returns the value and the unread remainder of the buffer, or `none`
(insufficient bytes, `UnexpectedEnd`) when the buffer holds fewer bytes
than the length prefix demands; on `none` no input is consumed. -/
def readVar : List Nat → Option (Nat × List Nat)
  | [] => none
  | b0 :: rest =>
    if rest.length + 1 < 2 ^ (b0 / 64) then none
    else
      some ((rest.take (2 ^ (b0 / 64) - 1)).foldl (fun acc x => acc * 256 + x) (b0 % 64),
            rest.drop (2 ^ (b0 / 64) - 1))

/-- Decodability test used to state when decoding runs out of input: the
buffer is empty, or shorter than the length its first byte's prefix demands. -/
def insufficientInput : List Nat → Bool
  | [] => true
  | b0 :: rest => decide (rest.length + 1 < 2 ^ (b0 / 64))

/-- `UnexpectedEnd` from `proto/coding.rs`: the sole decode error kind. -/
inductive UnexpectedEnd where
  | mk
deriving DecidableEq

/-- Modelled from the spec: a varint value, wrapped after a successful
range check (`VarInt` from `proto/varint.rs`). -/
structure VarInt where
  val : Nat
deriving DecidableEq

/-- Modelled from the spec: the varint format's maximum magnitude, 2^62 − 1. -/
def VarInt.MAX : Nat := 2 ^ 62 - 1

/-- Modelled from the spec: the varint format's maximum encoded byte length. -/
def VarInt.MAX_SIZE : Nat := 8

/-- Modelled from the spec: `VarInt::from_u64` succeeds exactly when the value
is representable in the varint wire format, i.e. at most 2^62 − 1. -/
def VarInt.from_u64 (x : Nat) : Option VarInt :=
  if x ≤ VarInt.MAX then some ⟨x⟩ else none

/-- Modelled from the spec: `VarInt::encode` appends the varint bytes of the
wrapped value to the output buffer. -/
def VarInt.encode (v : VarInt) (buf : List Nat) : List Nat :=
  buf ++ writeVar v.val

/-- `pub struct StreamType(u64)`: a stream type wrapping a raw value
(`value` is the `.0` field, read by `StreamType::value`). -/
structure StreamType where
  value : Nat
deriving DecidableEq

/-- `StreamType::CONTROL = 0x00` (from the `stream_types!` expansion). -/
def StreamType.CONTROL : StreamType := ⟨0x00⟩

/-- `StreamType::PUSH = 0x01`. -/
def StreamType.PUSH : StreamType := ⟨0x01⟩

/-- `StreamType::ENCODER = 0x02`. -/
def StreamType.ENCODER : StreamType := ⟨0x02⟩

/-- `StreamType::DECODER = 0x03`. -/
def StreamType.DECODER : StreamType := ⟨0x03⟩

/-- `StreamType::MAX_ENCODED_SIZE = VarInt::MAX_SIZE`. -/
def StreamType.MAX_ENCODED_SIZE : Nat := VarInt.MAX_SIZE

/-- `impl Decode for StreamType`: `Ok(StreamType(buf.get_var()?))`.  Returns
the result together with the buffer as the caller then sees it: advanced past
the varint on success, unchanged on failure (no partial input consumed). -/
def StreamType.decode (bs : List Nat) : Except UnexpectedEnd StreamType × List Nat :=
  match readVar bs with
  | none => (Except.error UnexpectedEnd.mk, bs)
  | some (v, rest) => (Except.ok ⟨v⟩, rest)

/-- `impl Encode for StreamType`: `buf.write_var(self.0)`. -/
def StreamType.encode (t : StreamType) (buf : List Nat) : List Nat :=
  buf ++ writeVar t.value

/-- `impl fmt::Display for StreamType`: the match arms name CONTROL, ENCODER
and DECODER; every other value (PUSH included) falls through to the generic
`StreamType(<value>)` form. -/
def StreamType.display (t : StreamType) : String :=
  if t = StreamType.CONTROL then "Control"
  else if t = StreamType.ENCODER then "Encoder"
  else if t = StreamType.DECODER then "Decoder"
  else "StreamType(" ++ toString t.value ++ ")"

/-- `enum Side`: which side of a connection initiated the stream. -/
inductive Side where
  | Client
  | Server
deriving DecidableEq

/-- `enum Dir`: whether a stream communicates data in both directions or
only from the initiator. -/
inductive Dir where
  | Bi
  | Uni
deriving DecidableEq

/-- `pub struct StreamId(u64)`: identifier for a stream (`raw` is the `.0`
field). -/
structure StreamId where
  raw : Nat
deriving DecidableEq

/-- `impl From<u64> for StreamId`: wraps the raw integer, no validation. -/
def StreamId.fromRaw (v : Nat) : StreamId := ⟨v⟩

/-- `StreamId::index`: `self.0 >> 2`. -/
def StreamId.index (s : StreamId) : Nat := s.raw >>> 2

/-- `StreamId::initiator`: `Client` when `self.0 & 0x1 == 0`, else `Server`. -/
def StreamId.initiator (s : StreamId) : Side :=
  if s.raw &&& 0x1 = 0 then Side.Client else Side.Server

/-- `StreamId::dir`: `Bi` when `self.0 & 0x2 == 0`, else `Uni`. -/
def StreamId.dir (s : StreamId) : Dir :=
  if s.raw &&& 0x2 = 0 then Dir.Bi else Dir.Uni

/-- `StreamId::is_request`: `self.dir() == Dir::Bi && self.initiator() == Side::Client`. -/
def StreamId.is_request (s : StreamId) : Bool :=
  s.dir == Dir.Bi && s.initiator == Side.Client

/-- `StreamId::is_push`: `self.dir() == Dir::Uni && self.initiator() == Side::Server`. -/
def StreamId.is_push (s : StreamId) : Bool :=
  s.dir == Dir.Uni && s.initiator == Side.Server

/-- `impl Encode for StreamId`: `VarInt::from_u64(self.0).unwrap().encode(buf)`.
The `.unwrap()` of a failed conversion is a panic, modelled as `none`;
`some` carries the buffer with the varint bytes appended. -/
def StreamId.encode (s : StreamId) (buf : List Nat) : Option (List Nat) :=
  match VarInt.from_u64 s.raw with
  | some v => some (v.encode buf)
  | none => none

/-- `impl fmt::Display for StreamId`:
`"{} {}directional stream {}"` with the initiator word, the direction word
and the index. -/
def StreamId.display (s : StreamId) : String :=
  (match s.initiator with
    | Side.Client => "client"
    | Side.Server => "server")
  ++ " "
  ++ (match s.dir with
    | Dir.Uni => "uni"
    | Dir.Bi => "bi")
  ++ "directional stream " ++ toString s.index

/-- The derived `Ord`/`PartialOrd` on the single-field tuple struct
`StreamId` compares the raw `u64` field. -/
instance : LT StreamId := ⟨fun a b => a.raw < b.raw⟩

theorem land_one (r : Nat) : r &&& 1 = r % 2 := Nat.and_one_is_mod r

theorem land_three (r : Nat) : r &&& 3 = r % 4 := Nat.and_pow_two_sub_one_eq_mod r 2

theorem land_two (r : Nat) : r &&& 2 = 2 * (r / 2 % 2) := by
  have h := Nat.and_two_pow r 1
  rw [Nat.testBit_to_div_mod] at h
  norm_num at h
  rcases Nat.mod_two_eq_zero_or_one (r / 2) with h2 | h2 <;> rw [h2] at h <;> simp at h <;> omega

/-- Varint round-trip: reading back a written value recovers it and consumes
exactly the written bytes. -/
theorem readVar_writeVar (v : Nat) (hv : v ≤ 2 ^ 62 - 1) (extra : List Nat) :
    readVar (writeVar v ++ extra) = some (v, extra) := by
  by_cases h1 : v < 2 ^ 6
  · have e0 : v / 64 = 0 := by omega
    simp only [writeVar, if_pos h1, List.cons_append, List.nil_append, readVar, e0]
    norm_num
    omega
  · by_cases h2 : v < 2 ^ 14
    · have e0 : (2 ^ 6 + v / 2 ^ 8) / 64 = 1 := by omega
      simp only [writeVar, if_neg h1, if_pos h2, List.cons_append, List.nil_append, readVar, e0]
      norm_num [List.take, List.foldl]
      omega
    · by_cases h3 : v < 2 ^ 30
      · have e0 : (2 ^ 7 + v / 2 ^ 24) / 64 = 2 := by omega
        simp only [writeVar, if_neg h1, if_neg h2, if_pos h3, List.cons_append,
          List.nil_append, readVar, e0]
        norm_num [List.take, List.foldl]
        omega
      · have e0 : (2 ^ 7 + 2 ^ 6 + v / 2 ^ 56) / 64 = 3 := by omega
        simp only [writeVar, if_neg h1, if_neg h2, if_neg h3, List.cons_append,
          List.nil_append, readVar, e0]
        norm_num [List.take, List.foldl]
        omega

/-- Claim C2 (confirmed): for every 64-bit raw id `r`, `index` is `r >> 2`,
`is_request` holds iff `r & 0x3 == 0`, and `is_push` holds iff `r & 0x3 == 0x3`. -/
theorem C2_bit_derivation (r : Nat) (h : r < 2 ^ 64) :
    (StreamId.mk r).index = r >>> 2
    ∧ ((StreamId.mk r).is_request = true ↔ r &&& 3 = 0)
    ∧ ((StreamId.mk r).is_push = true ↔ r &&& 3 = 3) := by
  refine ⟨rfl, ?_, ?_⟩ <;>
  · simp only [StreamId.is_request, StreamId.is_push, StreamId.dir, StreamId.initiator,
      Bool.and_eq_true, beq_iff_eq]
    have e1 := land_one r
    have e2 := land_two r
    have e3 := land_three r
    by_cases hb : r &&& 2 = 0 <;> by_cases ha : r &&& 1 = 0 <;>
      simp [hb, ha] <;> omega

/-- Witness for C2 at the concrete raw id 3. -/
theorem C2_bit_derivation_witness :
    (StreamId.mk 3).index = 3 >>> 2
    ∧ ((StreamId.mk 3).is_request = true ↔ 3 &&& 3 = 0)
    ∧ ((StreamId.mk 3).is_push = true ↔ 3 &&& 3 = 3) :=
  C2_bit_derivation 3 (by norm_num)

/-- Claim C9 (confirmed): `is_request` and `is_push` are never both true. -/
theorem C9_mutual_exclusion (r : Nat) (h : r < 2 ^ 64) :
    ¬((StreamId.mk r).is_request = true ∧ (StreamId.mk r).is_push = true) := by
  rintro ⟨hq, hp⟩
  simp only [StreamId.is_request, StreamId.is_push, Bool.and_eq_true, beq_iff_eq] at hq hp
  exact Dir.noConfusion (hq.1.symm.trans hp.1)

/-- Witness for C9 at the concrete raw id 0. -/
theorem C9_mutual_exclusion_witness :
    ¬((StreamId.mk 0).is_request = true ∧ (StreamId.mk 0).is_push = true) :=
  C9_mutual_exclusion 0 (by norm_num)

/-- Claim C8 (confirmed): equality and ordering of `StreamId` are the raw
64-bit value's equality and numeric ordering. -/
theorem C8_ordering (a b : Nat) (ha : a < 2 ^ 64) (hb : b < 2 ^ 64) :
    (StreamId.mk a < StreamId.mk b ↔ a < b) ∧ (StreamId.mk a = StreamId.mk b ↔ a = b) :=
  ⟨Iff.rfl, by simp [StreamId.mk.injEq]⟩

/-- Witness for C8 at the concrete raw ids 4 and 9. -/
theorem C8_ordering_witness :
    (StreamId.mk 4 < StreamId.mk 9 ↔ (4 : Nat) < 9)
    ∧ (StreamId.mk 4 = StreamId.mk 9 ↔ (4 : Nat) = 9) :=
  C8_ordering 4 9 (by norm_num) (by norm_num)

/-- Claim C10 (confirmed): under the precondition that the raw value is at
most 2^62 − 1, the `.unwrap()` inside `StreamId::encode` cannot fail: encode
never panics (the modelled result is always `some`). -/
theorem C10_encode_no_panic (r : Nat) (buf : List Nat) (h : r ≤ 2 ^ 62 - 1) :
    (StreamId.encode ⟨r⟩ buf).isSome = true := by
  simp only [StreamId.encode, VarInt.from_u64, VarInt.MAX]
  rw [if_pos h]
  rfl

/-- Witness for C10 at the concrete raw id 4 and an empty buffer. -/
theorem C10_encode_no_panic_witness :
    (StreamId.encode ⟨4⟩ []).isSome = true :=
  C10_encode_no_panic 4 [] (by norm_num)

/-- Counterexample to claim C1 as stated: at raw value 2^62 (one above the
varint maximum) `StreamId.encode` reaches the `.unwrap()` of the failed
`VarInt::from_u64` conversion — a panic, modelled as `none` — so the range
failure is a panic, not an explicit failure result. -/
theorem C1_counterexample : StreamId.encode ⟨2 ^ 62⟩ [] = none := by
  simp only [StreamId.encode, VarInt.from_u64, VarInt.MAX]
  rw [if_neg (by norm_num)]

/-- Claim C1 (amended): encode succeeds for every raw value within the varint
range, appending the varint bytes; for a raw value exceeding 2^62 − 1 it
fails by panicking (unwrapping the failed conversion), not by returning an
explicit failure result. -/
theorem C1_encode_range (r : Nat) (buf : List Nat) :
    (r ≤ 2 ^ 62 - 1 → StreamId.encode ⟨r⟩ buf = some (buf ++ writeVar r))
    ∧ (2 ^ 62 - 1 < r → StreamId.encode ⟨r⟩ buf = none) := by
  constructor <;> intro h
  · simp only [StreamId.encode, VarInt.from_u64, VarInt.MAX, VarInt.encode]
    rw [if_pos h]
  · simp only [StreamId.encode, VarInt.from_u64, VarInt.MAX]
    rw [if_neg (by omega)]

/-- Witness for the amended C1 at the concrete raw id 5 and an empty buffer. -/
theorem C1_encode_range_witness :
    StreamId.encode ⟨5⟩ [] = some ([] ++ writeVar 5) :=
  (C1_encode_range 5 []).1 (by norm_num)

/-- Claim C3 (confirmed): for every representable varint value `v`, encoding
`StreamType(v)` and decoding the result yields `StreamType(v)` with the
buffer fully consumed; and varint-encoding a `StreamId` with raw value `v`
then re-reading the varint and wrapping it yields the same `StreamId`. -/
theorem C3_round_trip (v : Nat) (hv : v ≤ 2 ^ 62 - 1) :
    StreamType.decode (StreamType.encode ⟨v⟩ []) = (Except.ok ⟨v⟩, [])
    ∧ ∃ out, StreamId.encode (StreamId.fromRaw v) [] = some out
        ∧ ∃ r rest, readVar out = some (r, rest) ∧ rest = []
            ∧ StreamId.fromRaw r = StreamId.fromRaw v := by
  have hrt : readVar (writeVar v) = some (v, []) := by
    simpa using readVar_writeVar v hv []
  constructor
  · simp only [StreamType.encode, List.nil_append, StreamType.decode, hrt]
  · refine ⟨writeVar v, ?_, v, [], hrt, rfl, rfl⟩
    simp only [StreamId.fromRaw, StreamId.encode, VarInt.from_u64, VarInt.MAX, VarInt.encode]
    rw [if_pos hv]
    simp

/-- Witness for C3 at the concrete value 1000 (a two-byte varint). -/
theorem C3_round_trip_witness :
    StreamType.decode (StreamType.encode ⟨1000⟩ []) = (Except.ok ⟨1000⟩, [])
    ∧ ∃ out, StreamId.encode (StreamId.fromRaw 1000) [] = some out
        ∧ ∃ r rest, readVar out = some (r, rest) ∧ rest = []
            ∧ StreamId.fromRaw r = StreamId.fromRaw 1000 :=
  C3_round_trip 1000 (by norm_num)

/-- Claim C4 (confirmed): `StreamType::decode` fails exactly when the buffer
holds fewer bytes than the varint's length prefix demands, the failure is
`UnexpectedEnd`, and on failure the buffer is left unchanged (no partial
input consumed); there is no value-range failure. -/
theorem C4_decode_insufficient (bs : List Nat) :
    ((StreamType.decode bs).1 = Except.error UnexpectedEnd.mk ↔ insufficientInput bs = true)
    ∧ ((StreamType.decode bs).1 = Except.error UnexpectedEnd.mk → (StreamType.decode bs).2 = bs) := by
  match bs with
  | [] => exact ⟨⟨fun _ => rfl, fun _ => rfl⟩, fun _ => rfl⟩
  | b0 :: rest =>
    by_cases h : rest.length + 1 < 2 ^ (b0 / 64)
    · refine ⟨⟨fun _ => ?_, fun _ => ?_⟩, fun _ => ?_⟩
      · simp [insufficientInput, h]
      · simp [StreamType.decode, readVar, h]
      · simp [StreamType.decode, readVar, h]
    · simp [StreamType.decode, readVar, h, insufficientInput]

/-- Witness for C4 at the concrete one-byte buffer `[192]`, whose length
prefix demands eight bytes: decode fails and consumes nothing. -/
theorem C4_decode_insufficient_witness :
    (StreamType.decode [192]).2 = [192] :=
  (C4_decode_insufficient [192]).2 rfl

/-- Claim C5 (confirmed): the four named constants have values 0, 1, 2, 3 and
each round-trips to itself through encode then decode. -/
theorem C5_constants :
    StreamType.CONTROL.value = 0 ∧ StreamType.PUSH.value = 1
    ∧ StreamType.ENCODER.value = 2 ∧ StreamType.DECODER.value = 3
    ∧ StreamType.decode (StreamType.encode StreamType.CONTROL []) = (Except.ok StreamType.CONTROL, [])
    ∧ StreamType.decode (StreamType.encode StreamType.PUSH []) = (Except.ok StreamType.PUSH, [])
    ∧ StreamType.decode (StreamType.encode StreamType.ENCODER []) = (Except.ok StreamType.ENCODER, [])
    ∧ StreamType.decode (StreamType.encode StreamType.DECODER []) = (Except.ok StreamType.DECODER, []) := by
  refine ⟨rfl, rfl, rfl, rfl, ?_, ?_, ?_, ?_⟩ <;> rfl

/-- Claim C6 (confirmed): `StreamType` renders value 0 as `"Control"`, 2 as
`"Encoder"`, 3 as `"Decoder"`, and every other value `v` — PUSH (value 1)
included — as `"StreamType(<v>)"`; in particular 42 renders as
`"StreamType(42)"`. -/
theorem C6_display_stream_type :
    (∀ v : Nat, v ≠ 0 → v ≠ 2 → v ≠ 3 →
      StreamType.display ⟨v⟩ = "StreamType(" ++ toString v ++ ")")
    ∧ StreamType.display ⟨0⟩ = "Control"
    ∧ StreamType.display ⟨2⟩ = "Encoder"
    ∧ StreamType.display ⟨3⟩ = "Decoder"
    ∧ StreamType.display ⟨1⟩ = "StreamType(1)"
    ∧ StreamType.display ⟨42⟩ = "StreamType(42)" := by
  refine ⟨fun v h0 h2 h3 => ?_, rfl, rfl, rfl, rfl, rfl⟩
  simp [StreamType.display, StreamType.CONTROL, StreamType.ENCODER, StreamType.DECODER,
    StreamType.mk.injEq, h0, h2, h3]

/-- Witness for C6 at the concrete unrecognized value 7. -/
theorem C6_display_stream_type_witness :
    StreamType.display ⟨7⟩ = "StreamType(" ++ toString 7 ++ ")" :=
  C6_display_stream_type.1 7 (by norm_num) (by norm_num) (by norm_num)

/-- Claim C7 (confirmed): `StreamId` renders as
`"<client|server> <uni|bi>directional stream <index>"`, the initiator word
chosen by bit 0, the direction word by bit 1, the index being `r >> 2`; with
the four concrete examples from the spec. -/
theorem C7_display_stream_id :
    (∀ r : Nat, r < 2 ^ 64 →
      StreamId.display ⟨r⟩ =
        (if r &&& 1 = 0 then "client" else "server") ++ " "
          ++ (if r &&& 2 = 0 then "bi" else "uni")
          ++ "directional stream " ++ toString (r >>> 2))
    ∧ StreamId.display ⟨0⟩ = "client bidirectional stream 0"
    ∧ StreamId.display ⟨1⟩ = "server bidirectional stream 0"
    ∧ StreamId.display ⟨2⟩ = "client unidirectional stream 0"
    ∧ StreamId.display ⟨7⟩ = "server unidirectional stream 1" := by
  refine ⟨fun r h => ?_, rfl, rfl, rfl, rfl⟩
  simp only [StreamId.display, StreamId.initiator, StreamId.dir, StreamId.index,
    Nat.and_one_is_mod]
  by_cases ha : r % 2 = 0 <;> by_cases hb : r &&& 2 = 0 <;> simp [ha, hb]

/-- Witness for C7 at the concrete raw id 6. -/
theorem C7_display_stream_id_witness :
    StreamId.display ⟨6⟩ =
      (if 6 &&& 1 = 0 then "client" else "server") ++ " "
        ++ (if 6 &&& 2 = 0 then "bi" else "uni")
        ++ "directional stream " ++ toString (6 >>> 2) :=
  C7_display_stream_id.1 6 (by norm_num)

end H3
